import Mathlib

/-!
Shallow embedding of the audio segmentation core of the repository
(src/audio/vad.py and src/audio/buffer.py).

Modelling conventions:
- Byte strings are lists of byte values (`List Nat`).
- The Silero model itself is external; its per-frame verdict (the
  `speech_dict` returned by the VADIterator being nonempty) and its batch
  speech-span extraction are oracle parameters (`classified : Bool`,
  `oracle : List Nat → List Nat`). Availability of the model
  (SILERO_VAD_AVAILABLE and model loaded) is a Boolean field.
- Durations in milliseconds are rationals, mirroring the Python float
  arithmetic `len(frame) / (sample_rate * 2) * 1000` exactly on the
  integer inputs that occur here.
- Total functions model the Python methods, none of which raise to the
  caller on the paths embedded here.
-/

namespace Record

/-- Result of `VADProcessor.process_frame` (vad.py lines 204-251):
the strings "speech", "silence", "speech_end". -/
inductive VADResult where
  | speech
  | silence
  | speech_end
deriving DecidableEq, Repr

/-- State of `VADProcessor` (vad.py lines 32-84): availability flag,
sample rate, aggressiveness, derived threshold, and the streaming state
`is_speaking`, `silence_frames`, `speech_frames`. -/
structure VADProcessor where
  available : Bool
  sample_rate : Nat
  aggressiveness : Int
  threshold : ℚ
  is_speaking : Bool
  silence_frames : Nat
  speech_frames : Nat
deriving DecidableEq, Repr

/-- The fixed lookup table `threshold_map = {0: 0.1, 1: 0.3, 2: 0.5, 3: 0.7}`
with default 0.5, as in vad.py lines 62-63 and 179-180
(`threshold_map.get(aggressiveness, 0.5)`). -/
def thresholdMap (a : Int) : ℚ :=
  if a = 0 then 1/10
  else if a = 1 then 3/10
  else if a = 2 then 1/2
  else if a = 3 then 7/10
  else 1/2

/-- `frame_duration_ms = len(audio_frame) / (self.sample_rate * 2) * 1000`
(vad.py line 239, buffer.py line 134). -/
def frameDurationMs (frameBytes sampleRate : Nat) : ℚ :=
  (frameBytes : ℚ) / ((sampleRate : ℚ) * 2) * 1000

/-- `VADProcessor.process_frame` (vad.py lines 204-251).
`classified` is the oracle verdict of the Silero iterator on this frame
(`speech_dict` nonempty). When the model is unavailable the method
returns "speech" without touching state (lines 215-217). The
per-frame exception path (lines 249-251) also returns "speech"; the
claims about the available path assume no internal errors, so it is not
modelled separately. -/
def VADProcessor.process_frame (v : VADProcessor) (classified : Bool)
    (frameBytes : Nat) (silence_threshold_ms : ℚ) : VADResult × VADProcessor :=
  if v.available = false then
    (.speech, v)
  else if classified then
    (.speech, { v with is_speaking := true, silence_frames := 0,
                       speech_frames := v.speech_frames + 1 })
  else
    let sf := v.silence_frames + 1
    let fm := frameDurationMs frameBytes v.sample_rate
    if v.is_speaking = true ∧ silence_threshold_ms ≤ (sf : ℚ) * fm then
      (.speech_end, { v with silence_frames := sf, is_speaking := false,
                             speech_frames := 0 })
    else
      (.silence, { v with silence_frames := sf })

/-- `VADProcessor.set_aggressiveness` (vad.py lines 166-193): no-op when
unavailable; for `0 <= aggressiveness <= 3` it updates `aggressiveness`
and `threshold` and recreates the VADIterator (model-internal state,
not part of this record); it does not touch `is_speaking`,
`silence_frames` or `speech_frames`. Out-of-range values only log. -/
def VADProcessor.set_aggressiveness (v : VADProcessor) (a : Int) : VADProcessor :=
  if v.available = false then v
  else if 0 ≤ a ∧ a ≤ 3 then
    { v with aggressiveness := a, threshold := thresholdMap a }
  else v

/-- `VADProcessor.reset_state` (vad.py lines 253-266): recreates the
iterator and zeroes the streaming state. -/
def VADProcessor.reset_state (v : VADProcessor) : VADProcessor :=
  { v with is_speaking := false, silence_frames := 0, speech_frames := 0 }

/-- `VADProcessor.extract_speech_segments` (vad.py lines 268-341): when
the model is unavailable, the input is returned unchanged (lines
278-280); otherwise the batch Silero extraction runs, modelled by the
oracle. -/
def VADProcessor.extract_speech_segments (v : VADProcessor)
    (oracle : List Nat → List Nat) (data : List Nat) : List Nat :=
  if v.available = false then data else oracle data

/-- Feeding a sequence of frame classifications through
`process_frame`, all frames having the same byte length (AudioFrame is
a fixed-length frame). Returns the emitted results in order and the
final state. -/
def runVAD (frameBytes : Nat) (silence_threshold_ms : ℚ) :
    VADProcessor → List Bool → List VADResult × VADProcessor
  | v, [] => ([], v)
  | v, c :: cs =>
    ((v.process_frame c frameBytes silence_threshold_ms).1 ::
        (runVAD frameBytes silence_threshold_ms
          (v.process_frame c frameBytes silence_threshold_ms).2 cs).1,
      (runVAD frameBytes silence_threshold_ms
        (v.process_frame c frameBytes silence_threshold_ms).2 cs).2)

/-- Configuration of `AudioBufferManager.__init__` (buffer.py lines
22-116). `silence_threshold_ms` is only passed through to
`process_frame`, whose verdict is an oracle input of `add_audio_data`
here, so it is not a field. -/
structure BufConfig where
  chunk_duration_sec : Nat
  sample_rate : Nat
  channels : Nat
  min_chunk_sec : Nat
  max_chunk_sec : Nat
  chunk_overlap_sec : Nat
  queue_maxsize : Nat
  vad_enabled : Bool
deriving DecidableEq, Repr

/-- `self.chunk_size_bytes = 2 * sample_rate * channels * chunk_duration_sec`
(buffer.py line 64). -/
def BufConfig.chunk_size_bytes (cfg : BufConfig) : Nat :=
  2 * cfg.sample_rate * cfg.channels * cfg.chunk_duration_sec

/-- `self.min_chunk_size_bytes` (buffer.py line 65). -/
def BufConfig.min_chunk_size_bytes (cfg : BufConfig) : Nat :=
  2 * cfg.sample_rate * cfg.channels * cfg.min_chunk_sec

/-- `self.max_chunk_size_bytes` (buffer.py line 66). -/
def BufConfig.max_chunk_size_bytes (cfg : BufConfig) : Nat :=
  2 * cfg.sample_rate * cfg.channels * cfg.max_chunk_sec

/-- `self.overlap_size_bytes` (buffer.py line 70). -/
def BufConfig.overlap_size_bytes (cfg : BufConfig) : Nat :=
  2 * cfg.sample_rate * cfg.channels * cfg.chunk_overlap_sec

/-- Mutable state of `AudioBufferManager`: the byte buffer, the carried
overlap, the bounded chunk queue (oldest first), and the dynamic-chunk
speaking state (buffer.py lines 71-82). Timestamps (wall-clock) are not
modelled; a queued chunk is its byte payload. -/
structure BufState where
  buffer : List Nat
  previous_overlap : List Nat
  chunk_queue : List (List Nat)
  is_speaking : Bool
  silence_duration_ms : ℚ
deriving DecidableEq, Repr

/-- Initial state after `__init__`: empty buffer, empty overlap, empty
queue, not speaking. -/
def initState : BufState :=
  { buffer := [], previous_overlap := [], chunk_queue := [],
    is_speaking := false, silence_duration_ms := 0 }

/-- The payload pushed by `_create_chunk`:
`bytes(self.previous_overlap + self.buffer[:chunk_size])` with
`chunk_size = len(self.buffer)` (buffer.py lines 177-180). -/
def chunkPayload (st : BufState) : List Nat :=
  st.previous_overlap ++ st.buffer

/-- `put_nowait` with drop-oldest on `queue.Full` (buffer.py lines
199-208). A `queue.Queue(maxsize)` is full iff `0 < maxsize ≤ qsize`;
then the oldest entry is removed by `get_nowait` and the new chunk is
pushed. -/
def pushChunk (maxsize : Nat) (q : List (List Nat)) (c : List Nat) :
    List (List Nat) :=
  if 0 < maxsize ∧ maxsize ≤ q.length then q.tail ++ [c] else q ++ [c]

/-- `AudioBufferManager._create_chunk` (buffer.py lines 172-208): the
whole current buffer becomes the chunk body, prefixed with the carried
overlap; the trailing `overlap_size_bytes` of the body (or the whole
body when `overlap_size_bytes` is zero or the body is shorter) is saved
as the next overlap; the buffer is emptied; the chunk is pushed with
drop-oldest backpressure. -/
def create_chunk (cfg : BufConfig) (st : BufState) : BufState :=
  let n := st.buffer.length
  { st with
    buffer := [],
    previous_overlap :=
      if 0 < cfg.overlap_size_bytes ∧ cfg.overlap_size_bytes ≤ n then
        st.buffer.drop (n - cfg.overlap_size_bytes)
      else
        st.buffer,
    chunk_queue := pushChunk cfg.queue_maxsize st.chunk_queue (chunkPayload st) }

/-- The fixed-mode loop `while len(self.buffer) >= self.chunk_size_bytes:
self._create_chunk()` (buffer.py lines 169-170). The guard carries the
positivity of `chunk_size_bytes`: with `chunk_size_bytes = 0` the
source loop never terminates, and no claim concerns that degenerate
configuration. -/
def fixedLoop (cfg : BufConfig) (st : BufState) : BufState :=
  if _h : 0 < cfg.chunk_size_bytes ∧ cfg.chunk_size_bytes ≤ st.buffer.length then
    fixedLoop cfg (create_chunk cfg st)
  else
    st
termination_by st.buffer.length
decreasing_by
  simp only [create_chunk, List.length_nil]
  omega

/-- `AudioBufferManager.add_audio_data` (buffer.py lines 118-170).
`vadResult` is the oracle outcome of `self.vad_processor.process_frame`
on this frame; it is consulted only when `vad_enabled` holds (the
processor is constructed whenever VAD is requested, so
`self.vad_processor` is non-None exactly when the VAD branch runs). -/
def add_audio_data (cfg : BufConfig) (st : BufState) (data : List Nat)
    (vadResult : VADResult) : BufState :=
  let st1 := { st with buffer := st.buffer ++ data }
  if cfg.vad_enabled then
    let frame_ms := frameDurationMs data.length cfg.sample_rate
    let st2 :=
      match vadResult with
      | .speech => { st1 with is_speaking := true, silence_duration_ms := 0 }
      | .silence =>
        if st1.is_speaking then
          { st1 with silence_duration_ms := st1.silence_duration_ms + frame_ms }
        else st1
      | .speech_end => { st1 with is_speaking := false, silence_duration_ms := 0 }
    if cfg.max_chunk_size_bytes ≤ st2.buffer.length ∨
       (cfg.min_chunk_size_bytes ≤ st2.buffer.length ∧ vadResult = .speech_end) then
      { create_chunk cfg st2 with silence_duration_ms := 0 }
    else
      st2
  else
    fixedLoop cfg st1

/-- Effective `self.vad_enabled` after `__init__` (buffer.py lines
85-99): VAD stays enabled only when it was requested and the Silero
model is available; otherwise it is forced to False. -/
def init_vad_enabled (requested : Bool) (vad_available : Bool) : Bool :=
  requested && vad_available

/-- Outcome of one iteration of the dispatcher loop on a dequeued chunk
(buffer.py lines 252-278): the payload handed to `on_chunk_ready` (none
when the callback is absent or the chunk is skipped) and the deltas to
the skip and processed counters. -/
structure DispatchOutcome where
  delivered : Option (List Nat)
  skipped_delta : Nat
  processed_delta : Nat
deriving DecidableEq, Repr

/-- One dispatcher iteration of `_process_chunks` on a dequeued chunk
(buffer.py lines 252-278). With VAD enabled the chunk body is passed
through `extract_speech_segments`; an empty or sub-1-second result
(fewer than `sample_rate * 2` bytes) increments the skip counter and is
not forwarded. `cb_present` models `self.on_chunk_ready` being set;
`cb_ok` models the callback returning without raising (an exception is
caught and the processed counter is not incremented, lines 271-276). -/
def process_one_chunk (vad_enabled cb_present cb_ok : Bool)
    (v : VADProcessor) (oracle : List Nat → List Nat) (sample_rate : Nat)
    (chunk : List Nat) : DispatchOutcome :=
  if vad_enabled then
    let processed := v.extract_speech_segments oracle chunk
    if processed = [] ∨ processed.length < sample_rate * 2 then
      { delivered := none, skipped_delta := 1, processed_delta := 0 }
    else if cb_present then
      { delivered := some processed, skipped_delta := 0,
        processed_delta := if cb_ok then 1 else 0 }
    else
      { delivered := none, skipped_delta := 0, processed_delta := 0 }
  else
    if cb_present then
      { delivered := some chunk, skipped_delta := 0,
        processed_delta := if cb_ok then 1 else 0 }
    else
      { delivered := none, skipped_delta := 0, processed_delta := 0 }

/-! ## Helper lemmas -/

/-- Since `_create_chunk` consumes the entire buffer, the fixed-mode
while loop performs at most one iteration: it equals a single guarded
`create_chunk`. -/
theorem fixedLoop_eq (cfg : BufConfig) (st : BufState) :
    fixedLoop cfg st =
      if 0 < cfg.chunk_size_bytes ∧ cfg.chunk_size_bytes ≤ st.buffer.length then
        create_chunk cfg st
      else st := by
  rw [fixedLoop]
  split
  · rename_i h
    rw [fixedLoop]
    rw [dif_neg]
    simp only [create_chunk, List.length_nil]
    omega
  · rfl

/-- With VAD disabled, `add_audio_data` appends and runs the fixed-mode
loop. -/
theorem add_audio_data_fixed (cfg : BufConfig) (st : BufState)
    (data : List Nat) (r : VADResult) (hv : cfg.vad_enabled = false) :
    add_audio_data cfg st data r =
      fixedLoop cfg { st with buffer := st.buffer ++ data } := by
  simp [add_audio_data, hv]

/-! ## Claims -/

/-- Configuration exercising fixed mode with zero overlap:
`chunk_duration_sec = 2`, `sample_rate = 1`, `channels = 1`, so
`chunk_size_bytes = 4`, `overlap_size_bytes = 0`, VAD disabled. -/
def cfgC1 : BufConfig :=
  { chunk_duration_sec := 2, sample_rate := 1, channels := 1,
    min_chunk_sec := 1, max_chunk_sec := 100, chunk_overlap_sec := 0,
    queue_maxsize := 20, vad_enabled := false }

/-- Specialization of `add_audio_data_fixed` to `cfgC1` for rewriting. -/
theorem add_audio_data_cfgC1 (st : BufState) (data : List Nat) (r : VADResult) :
    add_audio_data cfgC1 st data r =
      fixedLoop cfgC1 { st with buffer := st.buffer ++ data } :=
  add_audio_data_fixed cfgC1 st data r rfl

/-- C1: evaluation of the code at a concrete fixed-mode, zero-overlap
run refuting the claimed exact-size partition. With
`chunk_size_bytes = 4` and inputs `[1,2,3]`, `[4,5,6]`, `[7,8,9]`,
`[10]`, the code emits a first chunk of 6 bytes (not 4, with no 2-byte
remainder kept) because `_create_chunk` consumes the whole buffer, and
— because a zero overlap takes the `else` branch that saves the whole
buffer as the next overlap — the second chunk repeats all bytes of the
first, so the emitted bytes are not a partition of the input. The claim
(exact `chunk_size_bytes` chunks, bytes preserved, remainder buffered)
describes what the code comment `固定長チャンク（従来の動作）`
announces, but not what the code does. -/
theorem C1_fixed_mode_run :
    add_audio_data cfgC1
      (add_audio_data cfgC1
        (add_audio_data cfgC1
          (add_audio_data cfgC1 initState [1, 2, 3] .speech)
          [4, 5, 6] .speech)
        [7, 8, 9] .speech)
      [10] .speech =
    { buffer := [],
      previous_overlap := [7, 8, 9, 10],
      chunk_queue := [[1, 2, 3, 4, 5, 6], [1, 2, 3, 4, 5, 6, 7, 8, 9, 10]],
      is_speaking := false, silence_duration_ms := 0 } := by
  simp only [add_audio_data_cfgC1, fixedLoop_eq]
  decide

/-- C2: emitting a chunk into a queue at capacity drops the oldest
queued chunk, keeps the new chunk, and leaves the queue size at
capacity; `_create_chunk` returns normally (it is a total function
here, matching the source where both exceptions are caught). -/
theorem C2_drop_oldest (cfg : BufConfig) (st : BufState)
    (hcap : 0 < cfg.queue_maxsize)
    (hfull : st.chunk_queue.length = cfg.queue_maxsize) :
    (create_chunk cfg st).chunk_queue =
      st.chunk_queue.tail ++ [chunkPayload st] ∧
    (create_chunk cfg st).chunk_queue.length = cfg.queue_maxsize ∧
    chunkPayload st ∈ (create_chunk cfg st).chunk_queue := by
  have hq : (create_chunk cfg st).chunk_queue =
      st.chunk_queue.tail ++ [chunkPayload st] := by
    simp [create_chunk, pushChunk, hfull, hcap]
  refine ⟨hq, ?_, ?_⟩
  · rw [hq]
    simp only [List.length_append, List.length_tail, List.length_cons,
      List.length_nil]
    omega
  · rw [hq]
    simp

/-- Concrete input for C2: capacity 2, queue holding two chunks. -/
def cfgC2 : BufConfig :=
  { chunk_duration_sec := 2, sample_rate := 1, channels := 1,
    min_chunk_sec := 1, max_chunk_sec := 100, chunk_overlap_sec := 0,
    queue_maxsize := 2, vad_enabled := false }

/-- Concrete full-queue state for C2. -/
def stC2 : BufState :=
  { buffer := [9, 9], previous_overlap := [], chunk_queue := [[1], [2]],
    is_speaking := false, silence_duration_ms := 0 }

/-- Witness for C2 at a concrete full queue. -/
theorem C2_drop_oldest_witness :
    0 < cfgC2.queue_maxsize ∧
    stC2.chunk_queue.length = cfgC2.queue_maxsize ∧
    ((create_chunk cfgC2 stC2).chunk_queue =
        stC2.chunk_queue.tail ++ [chunkPayload stC2] ∧
      (create_chunk cfgC2 stC2).chunk_queue.length = cfgC2.queue_maxsize ∧
      chunkPayload stC2 ∈ (create_chunk cfgC2 stC2).chunk_queue) :=
  ⟨by decide, by decide, C2_drop_oldest cfgC2 stC2 (by decide) (by decide)⟩

/-- From a not-speaking state, a frame that does not classify as speech
never yields "speech_end" and leaves the state not-speaking. -/
theorem process_frame_not_speaking (fb : Nat) (thr : ℚ) (v : VADProcessor)
    (hsp : v.is_speaking = false) :
    (v.process_frame false fb thr).1 ≠ .speech_end ∧
    (v.process_frame false fb thr).2.is_speaking = false := by
  by_cases hav : v.available = false
  · simp [VADProcessor.process_frame, hav, hsp]
  · simp [VADProcessor.process_frame, hav, hsp]

/-- From a not-speaking state, an all-silence frame sequence produces no
"speech_end". -/
theorem runVAD_no_speech_end (fb : Nat) (thr : ℚ) :
    ∀ (cs : List Bool) (v : VADProcessor), v.is_speaking = false →
      (∀ c ∈ cs, c = false) →
      ∀ r ∈ (runVAD fb thr v cs).1, r ≠ .speech_end := by
  intro cs
  induction cs with
  | nil =>
    intro v _ _ r hr
    simp [runVAD] at hr
  | cons c cs ih =>
    intro v hv hcs r hr
    have hc : c = false := hcs c (by simp)
    subst hc
    simp only [runVAD, List.mem_cons] at hr
    rcases hr with h | h
    · subst h
      exact (process_frame_not_speaking fb thr v hv).1
    · exact ih (v.process_frame false fb thr).2
        (process_frame_not_speaking fb thr v hv).2
        (fun c hc => hcs c (by simp [hc])) r h

/-- C3: with the classifier available, "speech_end" is returned exactly
on a non-speech frame that arrives while speaking and whose accumulated
silence (frames since the last speech frame, including this one, times
the frame duration) reaches the silence threshold; the post state is
then not-speaking, and from a not-speaking state no "speech_end" can be
produced until a frame classifies as speech. -/
theorem C3_speech_end_once (fb : Nat) (thr : ℚ) :
    (∀ (v : VADProcessor) (c : Bool), v.available = true →
      ((v.process_frame c fb thr).1 = .speech_end ↔
        c = false ∧ v.is_speaking = true ∧
          thr ≤ ((v.silence_frames : ℚ) + 1) * frameDurationMs fb v.sample_rate)) ∧
    (∀ (v : VADProcessor) (c : Bool),
      (v.process_frame c fb thr).1 = .speech_end →
      (v.process_frame c fb thr).2.is_speaking = false) ∧
    (∀ (v : VADProcessor) (cs : List Bool), v.is_speaking = false →
      (∀ c ∈ cs, c = false) →
      ∀ r ∈ (runVAD fb thr v cs).1, r ≠ .speech_end) := by
  refine ⟨?_, ?_, fun v cs hv hcs => runVAD_no_speech_end fb thr cs v hv hcs⟩
  · intro v c hav
    cases c with
    | false =>
      by_cases hsp : v.is_speaking = true
      · by_cases hth : thr ≤ ((v.silence_frames : ℚ) + 1) *
            frameDurationMs fb v.sample_rate
        · simp [VADProcessor.process_frame, hav, hsp, hth]
        · simp [VADProcessor.process_frame, hav, hsp, hth]
      · simp [VADProcessor.process_frame, hav, hsp]
    | true =>
      simp [VADProcessor.process_frame, hav]
  · intro v c h
    by_cases hav : v.available = false
    · simp [VADProcessor.process_frame, hav] at h
    · cases c with
      | true => simp [VADProcessor.process_frame, hav] at h
      | false =>
        by_cases hsp : v.is_speaking = true
        · by_cases hth : thr ≤ ((v.silence_frames : ℚ) + 1) *
              frameDurationMs fb v.sample_rate
          · simp [VADProcessor.process_frame, hav, hsp, hth]
          · simp [VADProcessor.process_frame, hav, hsp, hth] at h
        · simp [VADProcessor.process_frame, hav, hsp] at h

/-- Concrete VAD state for the C3 witness: speaking, 49 accumulated
silence frames, 16 kHz; a 320-byte frame lasts 10 ms, so the 50th
silence frame reaches the 500 ms threshold. -/
def vC3 : VADProcessor :=
  { available := true, sample_rate := 16000, aggressiveness := 2,
    threshold := 1/2, is_speaking := true, silence_frames := 49,
    speech_frames := 5 }

/-- Not-speaking variant for the run part of the C3 witness. -/
def vC3n : VADProcessor :=
  { available := true, sample_rate := 16000, aggressiveness := 2,
    threshold := 1/2, is_speaking := false, silence_frames := 0,
    speech_frames := 0 }

/-- Witness for C3 at a concrete state and frame sequence. -/
theorem C3_speech_end_once_witness :
    (vC3.process_frame false 320 500).1 = .speech_end ∧
    (vC3.process_frame false 320 500).2.is_speaking = false ∧
    (∀ r ∈ (runVAD 320 500 vC3n [false, false, false]).1,
      r ≠ .speech_end) := by
  have h1 : (vC3.process_frame false 320 500).1 = .speech_end :=
    ((C3_speech_end_once 320 500).1 vC3 false rfl).mpr
      ⟨rfl, rfl, by norm_num [frameDurationMs, vC3]⟩
  exact ⟨h1, (C3_speech_end_once 320 500).2.1 vC3 false h1,
    (C3_speech_end_once 320 500).2.2 vC3n [false, false, false] rfl
      (by decide)⟩

/-- Concrete VAD state with live streaming state for C4. -/
def vC4 : VADProcessor :=
  { available := true, sample_rate := 16000, aggressiveness := 2,
    threshold := 1/2, is_speaking := true, silence_frames := 3,
    speech_frames := 7 }

/-- C4 counterexample: `set_aggressiveness(1)` on an available
classifier in a speaking state with nonzero accumulators does not reset
the streaming state to the initial not-speaking state, contrary to the
claim; only the Silero iterator is recreated (vad.py lines 183-189),
while `is_speaking`, `silence_frames`, `speech_frames` keep their
values. -/
theorem C4_reset_counterexample :
    ¬ ((vC4.set_aggressiveness 1).is_speaking = false ∧
       (vC4.set_aggressiveness 1).silence_frames = 0 ∧
       (vC4.set_aggressiveness 1).speech_frames = 0) := by
  decide

/-- C4 amended: for a valid level 0-3 on an available classifier, the
threshold becomes the lookup-table value and the level is stored, but
the streaming state (speaking flag and silence/speech accumulators) is
left unchanged; it is `reset_state`, not `set_aggressiveness`, that
resets it to the initial not-speaking state. -/
theorem C4_set_aggressiveness_amended (v : VADProcessor) (a : Int)
    (hav : v.available = true) (h0 : 0 ≤ a) (h3 : a ≤ 3) :
    (v.set_aggressiveness a).threshold = thresholdMap a ∧
    (v.set_aggressiveness a).aggressiveness = a ∧
    (v.set_aggressiveness a).is_speaking = v.is_speaking ∧
    (v.set_aggressiveness a).silence_frames = v.silence_frames ∧
    (v.set_aggressiveness a).speech_frames = v.speech_frames ∧
    v.reset_state.is_speaking = false ∧
    v.reset_state.silence_frames = 0 ∧
    v.reset_state.speech_frames = 0 := by
  simp [VADProcessor.set_aggressiveness, VADProcessor.reset_state,
    hav, h0, h3]

/-- Witness for the amended C4 at `vC4` and level 1. -/
theorem C4_set_aggressiveness_amended_witness :
    vC4.available = true ∧ (0 : Int) ≤ 1 ∧ (1 : Int) ≤ 3 ∧
    ((vC4.set_aggressiveness 1).threshold = thresholdMap 1 ∧
      (vC4.set_aggressiveness 1).aggressiveness = 1 ∧
      (vC4.set_aggressiveness 1).is_speaking = vC4.is_speaking ∧
      (vC4.set_aggressiveness 1).silence_frames = vC4.silence_frames ∧
      (vC4.set_aggressiveness 1).speech_frames = vC4.speech_frames ∧
      vC4.reset_state.is_speaking = false ∧
      vC4.reset_state.silence_frames = 0 ∧
      vC4.reset_state.speech_frames = 0) :=
  ⟨rfl, by decide, by decide,
    C4_set_aggressiveness_amended vC4 1 rfl (by decide) (by decide)⟩

/-- C5: in dynamic mode, a "speech_end" verdict while the buffer (after
appending the frame) is below both the minimum and the maximum chunk
sizes emits no chunk and keeps every buffered byte. -/
theorem C5_min_duration_guard (cfg : BufConfig) (st : BufState)
    (data : List Nat) (hv : cfg.vad_enabled = true)
    (hmin : st.buffer.length + data.length < cfg.min_chunk_size_bytes)
    (hmax : st.buffer.length + data.length < cfg.max_chunk_size_bytes) :
    (add_audio_data cfg st data .speech_end).buffer = st.buffer ++ data ∧
    (add_audio_data cfg st data .speech_end).chunk_queue = st.chunk_queue := by
  simp only [add_audio_data, hv, if_true]
  rw [if_neg]
  · exact ⟨rfl, rfl⟩
  · simp only [List.length_append]
    rintro (h | ⟨h, _⟩) <;> omega

/-- Dynamic-mode configuration for witnesses: `sample_rate = 1`,
`channels = 1`, so `min_chunk_size_bytes = 10`,
`max_chunk_size_bytes = 40`, `overlap_size_bytes = 2`. -/
def cfgD : BufConfig :=
  { chunk_duration_sec := 30, sample_rate := 1, channels := 1,
    min_chunk_sec := 5, max_chunk_sec := 20, chunk_overlap_sec := 1,
    queue_maxsize := 20, vad_enabled := true }

/-- Witness for C5: three bytes are below the 10-byte minimum. -/
theorem C5_min_duration_guard_witness :
    cfgD.vad_enabled = true ∧
    initState.buffer.length + [1, 2, 3].length < cfgD.min_chunk_size_bytes ∧
    initState.buffer.length + [1, 2, 3].length < cfgD.max_chunk_size_bytes ∧
    ((add_audio_data cfgD initState [1, 2, 3] .speech_end).buffer =
        initState.buffer ++ [1, 2, 3] ∧
      (add_audio_data cfgD initState [1, 2, 3] .speech_end).chunk_queue =
        initState.chunk_queue) :=
  ⟨rfl, by decide, by decide,
    C5_min_duration_guard cfgD initState [1, 2, 3] rfl (by decide) (by decide)⟩

/-- C6: in dynamic mode with a "speech" verdict, a forced cut happens
exactly on the call whose frame brings the buffer to at least
`max_chunk_size_bytes`: at or past the limit the whole buffer (with the
carried overlap) is pushed and the buffer is emptied; below the limit
nothing is cut, so the cut of a run of speech frames falls on the first
frame reaching the limit. -/
theorem C6_forced_cut (cfg : BufConfig) (st : BufState) (data : List Nat)
    (hv : cfg.vad_enabled = true) :
    (cfg.max_chunk_size_bytes ≤ st.buffer.length + data.length →
      (add_audio_data cfg st data .speech).buffer = [] ∧
      (add_audio_data cfg st data .speech).chunk_queue =
        pushChunk cfg.queue_maxsize st.chunk_queue
          (st.previous_overlap ++ (st.buffer ++ data))) ∧
    (st.buffer.length + data.length < cfg.max_chunk_size_bytes →
      (add_audio_data cfg st data .speech).buffer = st.buffer ++ data ∧
      (add_audio_data cfg st data .speech).chunk_queue = st.chunk_queue) := by
  constructor
  · intro hle
    simp only [add_audio_data, hv, if_true]
    rw [if_pos]
    · exact ⟨rfl, rfl⟩
    · simp only [List.length_append]
      exact Or.inl hle
  · intro hlt
    simp only [add_audio_data, hv, if_true]
    rw [if_neg]
    · exact ⟨rfl, rfl⟩
    · simp only [List.length_append]
      rintro (h | ⟨_, h⟩)
      · omega
      · exact VADResult.noConfusion h

/-- Dynamic-mode configuration with a 4-byte maximum chunk size for the
C6 witness. -/
def cfgD6 : BufConfig :=
  { chunk_duration_sec := 30, sample_rate := 1, channels := 1,
    min_chunk_sec := 1, max_chunk_sec := 2, chunk_overlap_sec := 1,
    queue_maxsize := 20, vad_enabled := true }

/-- Witness for C6: four bytes reach the 4-byte maximum and cut; two
bytes do not. -/
theorem C6_forced_cut_witness :
    cfgD6.vad_enabled = true ∧
    ((add_audio_data cfgD6 initState [1, 2, 3, 4] .speech).buffer = [] ∧
      (add_audio_data cfgD6 initState [1, 2, 3, 4] .speech).chunk_queue =
        pushChunk cfgD6.queue_maxsize initState.chunk_queue
          (initState.previous_overlap ++ (initState.buffer ++ [1, 2, 3, 4]))) ∧
    ((add_audio_data cfgD6 initState [1, 2] .speech).buffer =
        initState.buffer ++ [1, 2] ∧
      (add_audio_data cfgD6 initState [1, 2] .speech).chunk_queue =
        initState.chunk_queue) :=
  ⟨rfl, (C6_forced_cut cfgD6 initState [1, 2, 3, 4] rfl).1 (by decide),
    (C6_forced_cut cfgD6 initState [1, 2] rfl).2 (by decide)⟩

/-- C7: with a positive overlap, the chunk cut after a previous cut
begins with exactly the trailing `overlap_size_bytes` of the previous
chunk body (the body excludes that chunk's own carried prefix), or with
the whole previous body when it is shorter than the overlap; a chunk
cut from the initial state has no carried prefix. `b2` is the audio
accumulated between the two cuts. -/
theorem C7_overlap_carry (cfg : BufConfig) (st : BufState) (b2 : List Nat)
    (hov : 0 < cfg.overlap_size_bytes) :
    chunkPayload { create_chunk cfg st with buffer := b2 } =
      (if cfg.overlap_size_bytes ≤ st.buffer.length then
        st.buffer.drop (st.buffer.length - cfg.overlap_size_bytes)
      else st.buffer) ++ b2 ∧
    initState.previous_overlap = [] ∧
    chunkPayload { initState with buffer := b2 } = b2 := by
  refine ⟨?_, rfl, rfl⟩
  simp only [chunkPayload, create_chunk]
  congr 1
  simp [hov]

/-- Buffer state for the C7 witness: a three-byte body, overlap two. -/
def stC7 : BufState :=
  { buffer := [1, 2, 3], previous_overlap := [], chunk_queue := [],
    is_speaking := false, silence_duration_ms := 0 }

/-- Witness for C7 with `cfgD` (overlap two bytes): the follow-on chunk
begins with the last two bytes of the previous three-byte body. -/
theorem C7_overlap_carry_witness :
    0 < cfgD.overlap_size_bytes ∧
    (chunkPayload { create_chunk cfgD stC7 with buffer := [7, 8] } =
        (if cfgD.overlap_size_bytes ≤ stC7.buffer.length then
          stC7.buffer.drop (stC7.buffer.length - cfgD.overlap_size_bytes)
        else stC7.buffer) ++ [7, 8] ∧
      initState.previous_overlap = [] ∧
      chunkPayload { initState with buffer := [7, 8] } = [7, 8]) :=
  ⟨by decide, C7_overlap_carry cfgD stC7 [7, 8] (by decide)⟩

/-- C8: with the classifier unavailable, `process_frame` returns
"speech" (leaving the state untouched) for every frame and
`extract_speech_segments` returns its input unchanged; both are total
functions, matching the source paths that return before any fallible
computation. -/
theorem C8_fail_open (v : VADProcessor) (c : Bool) (fb : Nat) (thr : ℚ)
    (oracle : List Nat → List Nat) (data : List Nat)
    (hun : v.available = false) :
    (v.process_frame c fb thr).1 = .speech ∧
    (v.process_frame c fb thr).2 = v ∧
    v.extract_speech_segments oracle data = data := by
  simp [VADProcessor.process_frame, VADProcessor.extract_speech_segments, hun]

/-- Unavailable-classifier state for witnesses. -/
def vUn : VADProcessor :=
  { available := false, sample_rate := 16000, aggressiveness := 2,
    threshold := 1/2, is_speaking := true, silence_frames := 3,
    speech_frames := 7 }

/-- Witness for C8 at a concrete unavailable state. -/
theorem C8_fail_open_witness :
    vUn.available = false ∧
    ((vUn.process_frame true 320 500).1 = .speech ∧
      (vUn.process_frame true 320 500).2 = vUn ∧
      vUn.extract_speech_segments id [1, 2, 3] = [1, 2, 3]) :=
  ⟨rfl, C8_fail_open vUn true 320 500 id [1, 2, 3] rfl⟩

/-- C9: in the dispatcher with VAD enabled, a chunk whose extracted
speech is empty or shorter than one second (`sample_rate * 2` bytes)
increments the skip counter by one and is never delivered to the
callback, for any callback configuration. -/
theorem C9_skip_short (v : VADProcessor) (oracle : List Nat → List Nat)
    (sr : Nat) (chunk : List Nat) (cb_present cb_ok : Bool)
    (hshort : v.extract_speech_segments oracle chunk = [] ∨
      (v.extract_speech_segments oracle chunk).length < sr * 2) :
    (process_one_chunk true cb_present cb_ok v oracle sr chunk).skipped_delta = 1 ∧
    (process_one_chunk true cb_present cb_ok v oracle sr chunk).delivered = none ∧
    (process_one_chunk true cb_present cb_ok v oracle sr chunk).processed_delta = 0 := by
  simp [process_one_chunk, hshort]

/-- Witness for C9: a two-byte chunk at `sample_rate = 16000` is far
below the one-second minimum of 32000 bytes. -/
theorem C9_skip_short_witness :
    (vUn.extract_speech_segments id [1, 2] = [] ∨
      (vUn.extract_speech_segments id [1, 2]).length < 16000 * 2) ∧
    ((process_one_chunk true true true vUn id 16000 [1, 2]).skipped_delta = 1 ∧
      (process_one_chunk true true true vUn id 16000 [1, 2]).delivered = none ∧
      (process_one_chunk true true true vUn id 16000 [1, 2]).processed_delta = 0) :=
  ⟨Or.inr (by decide),
    C9_skip_short vUn id 16000 [1, 2] true true (Or.inr (by decide))⟩

/-- C10: when VAD is requested but the classifier is unavailable,
`__init__` forces `vad_enabled` to False; with `vad_enabled` False,
`add_audio_data` ignores the classifier verdict and runs the fixed-mode
loop, which cuts exactly when the buffer reaches `chunk_size_bytes`;
and the dispatcher forwards every chunk unmodified with no skip
filtering. -/
theorem C10_vad_unavailable_fallback :
    init_vad_enabled true false = false ∧
    (∀ (cfg : BufConfig) (st : BufState) (data : List Nat)
       (r₁ r₂ : VADResult), cfg.vad_enabled = false →
      add_audio_data cfg st data r₁ =
        fixedLoop cfg { st with buffer := st.buffer ++ data } ∧
      add_audio_data cfg st data r₁ = add_audio_data cfg st data r₂) ∧
    (∀ (cfg : BufConfig) (st : BufState),
      fixedLoop cfg st =
        if 0 < cfg.chunk_size_bytes ∧
            cfg.chunk_size_bytes ≤ st.buffer.length then
          create_chunk cfg st
        else st) ∧
    (∀ (v : VADProcessor) (oracle : List Nat → List Nat) (sr : Nat)
       (chunk : List Nat) (cb_ok : Bool),
      process_one_chunk false true cb_ok v oracle sr chunk =
        { delivered := some chunk, skipped_delta := 0,
          processed_delta := if cb_ok then 1 else 0 }) := by
  refine ⟨rfl, ?_, fixedLoop_eq, ?_⟩
  · intro cfg st data r₁ r₂ hv
    exact ⟨add_audio_data_fixed cfg st data r₁ hv,
      (add_audio_data_fixed cfg st data r₁ hv).trans
        (add_audio_data_fixed cfg st data r₂ hv).symm⟩
  · intro v oracle sr chunk cb_ok
    simp [process_one_chunk]

/-- Witness for C10 at concrete inputs. -/
theorem C10_vad_unavailable_fallback_witness :
    init_vad_enabled true false = false ∧
    cfgC1.vad_enabled = false ∧
    (add_audio_data cfgC1 initState [1] .speech =
        fixedLoop cfgC1 { initState with buffer := initState.buffer ++ [1] } ∧
      add_audio_data cfgC1 initState [1] .speech =
        add_audio_data cfgC1 initState [1] .silence) ∧
    process_one_chunk false true true vUn id 16000 [1, 2] =
      { delivered := some [1, 2], skipped_delta := 0, processed_delta := 1 } :=
  ⟨C10_vad_unavailable_fallback.1, rfl,
    C10_vad_unavailable_fallback.2.1 cfgC1 initState [1] .speech .silence rfl,
    C10_vad_unavailable_fallback.2.2.2 vUn id 16000 [1, 2] true⟩

end Record
